import Mathlib

/-!
Verification of the provider-scoped replace-and-rollback protocol of
ai-models-discoverer_v3.

The protocol recurs in three scripts, each shallowly embedded in its own
namespace below:

* `ORRefresh`   — openrouter_pipeline/01_scripts/T_refresh_supabase_working_version.py
* `ProdDeploy`  — openrouter_pipeline/01_scripts/U_deploy_to_ai_models_main.py
* `GoogleRefresh` — google_pipeline/T_supabase_working_version_refresh.py

External effects (Supabase REST calls) are modelled by an environment record
supplying the outcome of every network call, and each embedded function
additionally returns the ordered list of store operations it issued (`Op`).
Python floats in threshold comparisons (0.9, 0.95, 0.05) are embedded as exact
rationals; at the row counts these scripts handle the binary-float comparison
of the source and the exact rational comparison agree, since the products
involved are at distance far larger than one unit in the last place from the
nearest differing integer boundary.
-/

/-- A database record: an ordered field map. A value of `none` is SQL null,
`some s` is the scalar rendered as a string (the fields the protocol inspects
are all text fields). -/
abbrev DbRecord := List (String × Option String)

/-- One operation issued against the target store, in issue order.
`stagingRead` covers reads of the staging table in the production-deployment
script; all other constructors are operations on the scoped slice of the
target table. -/
inductive Op where
  | countScope
  | selectScope
  | deleteScope
  | stagingRead
  | insertRows (payload : List DbRecord)
deriving DecidableEq, Repr

/-- Outcome of a single-record insert call: `ok` (response.data holds the row),
`noData` (call returned but response.data is empty), `raised` (exception). -/
inductive CallRes where
  | ok
  | noData
  | raised
deriving DecidableEq, Repr

/-- Outcome of one batched bulk-insert call during a restore:
`inserted n` means response.data held `n` rows, `noData` an empty response,
`raised` an exception (which triggers the per-record fallback for the batch). -/
inductive BatchRes where
  | inserted (n : Nat)
  | noData
  | raised
deriving DecidableEq, Repr

/-- The auto-managed columns that Supabase assigns itself
(`auto_managed_fields = ['id', 'created_at', 'updated_at']` in all three
stripping sites of the two openrouter scripts). -/
def auto_managed_fields : List String := ["id", "created_at", "updated_at"]

/-- `clean_record = {k: v for k, v in record.items() if k not in auto_managed_fields}`. -/
def cleanRecord (r : DbRecord) : DbRecord :=
  r.filter (fun kv => !(auto_managed_fields.contains kv.1))

/-- The two columns for which empty strings are converted to null before an
insert (`nullable_fields = ['license_info_text', 'license_info_url']`). -/
def nullable_fields : List String := ["license_info_text", "license_info_url"]

/-- One entry of the empty-string-to-null conversion: a present, non-null
value of a nullable field that strips to the empty string becomes null. -/
def blankEntry (kv : String × Option String) : String × Option String :=
  match kv.2 with
  | some s =>
      if nullable_fields.contains kv.1 && s.trim == "" then (kv.1, none) else kv
  | none => kv

/-- The empty-string-to-null conversion applied by both preparation functions. -/
def blankToNull (r : DbRecord) : DbRecord :=
  r.map blankEntry

/-- A record free of every auto-managed column. -/
def noAutoFields (r : DbRecord) : Bool :=
  r.all (fun kv => !(auto_managed_fields.contains kv.1))

/-- `record.get(k)`: `none` when the key is absent or its stored value is null. -/
def pyGet (r : DbRecord) (k : String) : Option String :=
  match r.lookup k with
  | none => none
  | some v => v

/-- Python truthiness of `record.get(k)`: false for absent, null, and empty string. -/
def pyTruthy (v : Option String) : Bool :=
  match v with
  | none => false
  | some s => !(s == "")

/-- Environment of one run of a bulk-with-individual-fallback insert engine:
`bulkOutcome` is `none` when the bulk call raises and `some n` when it returns
`n` rows; `singleRes i` is the outcome of the individual insert of record `i`. -/
structure InsEnv where
  bulkOutcome : Option Nat
  singleRes : Nat → CallRes

/-- Number of `CallRes.ok` outcomes among the first `n` individual inserts. -/
def countOk (f : Nat → CallRes) : Nat → Nat
  | 0 => 0
  | n + 1 =>
      countOk f n + (match f n with | CallRes.ok => 1 | _ => 0)

/-- `success_rate = successful_inserts / len(models) if models else 0`
(identical in both openrouter scripts). -/
def success_rate (successful : Nat) (models : List DbRecord) : ℚ :=
  if models.isEmpty then 0 else (successful : ℚ) / (models.length : ℚ)

/-- Fuel-indexed splitting into batches of 50, mirroring
`for i in range(0, len(data), 50): batch = data[i:i+50]`. -/
def chunksAux : Nat → List DbRecord → List (List DbRecord)
  | 0, _ => []
  | _, [] => []
  | Nat.succ fuel, l => l.take 50 :: chunksAux fuel (l.drop 50)

/-- The batches of 50 used by the two restore functions. -/
def chunks50 (l : List DbRecord) : List (List DbRecord) :=
  chunksAux l.length l

/-- Environment of one restore run: the result of each bulk batch insert, and
the final scoped count query (`none` when it fails). Per-record fallback
outcomes only feed logged tallies in the source and never the verdict, so they
are not part of the environment. -/
structure RestoreEnv where
  batchRes : Nat → BatchRes
  finalCount : Option Nat

/-- The insert operations issued by the batch loop shared by both restore
functions: each batch is bulk-inserted, and when that call raises every record
of the batch is retried individually before moving to the next batch. -/
def restoreOps (env : RestoreEnv) : Nat → List (List DbRecord) → List Op
  | _, [] => []
  | i, b :: bs =>
      (Op.insertRows b ::
        (match env.batchRes i with
         | BatchRes.raised => b.map (fun r => Op.insertRows [r])
         | _ => ([] : List Op))) ++ restoreOps env (i + 1) bs

namespace ORRefresh

/-- `delete_existing_openrouter_data` (T_refresh_supabase_working_version.py,
lines 183-219): fail if the pre-count fails; return ok without deleting when
the pre-count is zero; otherwise delete and require the post-delete count to
be exactly zero (a failed post-count, `none`, is a failure). -/
def delete_existing_openrouter_data
    (initial_count : Option Nat) (deleteRaises : Bool)
    (remaining_count : Option Nat) : Bool :=
  match initial_count with
  | none => false
  | some 0 => true
  | some (_ + 1) =>
      if deleteRaises then false else decide (remaining_count = some 0)

/-- Store-level wrapper for the delete stage: derives both counts from the
scoped rows currently in the store plus failure flags, applying the REST
semantics that one scoped SQL delete removes every scoped row unless the call
raises. Returns (verdict, scoped rows left in the store, operations issued). -/
def runDelete (rows : List DbRecord)
    (precountFails deleteRaises postcountFails : Bool) :
    Bool × List DbRecord × List Op :=
  let initial_count : Option Nat := if precountFails then none else some rows.length
  let attempted : Bool := !precountFails && !rows.isEmpty
  let rowsAfter : List DbRecord := if attempted && !deleteRaises then [] else rows
  let remaining_count : Option Nat :=
    if attempted && !deleteRaises then
      (if postcountFails then none else some rowsAfter.length)
    else none
  let ops : List Op :=
    if !attempted then [Op.countScope]
    else if deleteRaises then [Op.countScope, Op.deleteScope]
    else [Op.countScope, Op.deleteScope, Op.countScope]
  (delete_existing_openrouter_data initial_count deleteRaises remaining_count,
   rowsAfter, ops)

/-- `prepare_data_for_insert` (lines 390-422): strip the auto-managed fields
and convert blank strings to null for the two nullable license fields. -/
def prepare_data_for_insert (models : List DbRecord) : List DbRecord :=
  models.map (fun m => blankToNull (cleanRecord m))

/-- `insert_new_data` (lines 425-498): empty input succeeds with no store
call; otherwise one bulk insert, accepted only when it returns exactly
`len(models)` rows; any other outcome falls through to inserting the records
one at a time in original order, accepted when the success rate is at least
0.9. -/
def insert_new_data (models : List DbRecord) (env : InsEnv) : Bool × List Op :=
  if models.isEmpty then (true, [])
  else
    let fallback : Bool × List Op :=
      let successful_inserts := countOk env.singleRes models.length
      (decide (success_rate successful_inserts models ≥ (9 / 10 : ℚ)),
       Op.insertRows models :: models.map (fun m => Op.insertRows [m]))
    match env.bulkOutcome with
    | some n => if n = models.length then (true, [Op.insertRows models]) else fallback
    | none => fallback

/-- `restore_backup_data` (lines 222-301): empty backup returns success with
no store call; otherwise strip auto-managed fields, insert in batches of 50
(per-record fallback inside a batch only when the batch call raises), then
accept exactly when the final scoped count succeeds and is at least 95% of
the backup size. The restored/failed tallies of the source only feed log
lines, never the verdict. -/
def restore_backup_data (backup_data : List DbRecord) (env : RestoreEnv) :
    Bool × List Op :=
  if backup_data.isEmpty then (true, [])
  else
    let clean_backup_data := backup_data.map cleanRecord
    let batches := chunks50 clean_backup_data
    let ops : List Op := restoreOps env 0 batches
    let verdict : Bool :=
      match env.finalCount with
      | some final_count =>
          decide ((final_count : ℚ) ≥ (backup_data.length : ℚ) * (95 / 100))
      | none => false
    (verdict, ops ++ [Op.countScope])

/-- `verify_insertion` (lines 501-524): the final scoped count must equal the
expected count exactly; a failed count query is a verification failure. -/
def verify_insertion (expected_count : Nat) (finalCount : Option Nat) : Bool :=
  match finalCount with
  | none => false
  | some final_count => decide (final_count = expected_count)

/-- Environment of one refresh session: results of each external interaction
of `main`, in program order. `scopedRows` is the scoped slice of the store at
session start (read by the backup step, removed by a successful delete). -/
structure Env where
  clientOk : Bool
  initialCount : Option Nat
  loaded : Option (List DbRecord)
  backupRaises : Bool
  scopedRows : List DbRecord
  precountFails : Bool
  deleteRaises : Bool
  postcountFails : Bool
  ins : InsEnv
  verifyCount : Option Nat
  restore : RestoreEnv

/-- Outcome of one session: overall result, the ordered store operations
issued, the reported rollback outcome (`none` when rollback never ran), how
many times the restore routine was invoked, and — for sessions that ended
before any insert was attempted — the scoped rows left in the store. -/
structure SessionResult where
  ok : Bool
  trace : List Op
  rollbackReported : Option Bool
  restoreInvocations : Nat
  rowsAtAbort : Option (List DbRecord)

/-- `main` (lines 527-621): client init, initial count, load, prepare, backup
(abort on failure), delete (abort on failure, no rollback), insert (rollback
on failure), verify (rollback on failure). -/
def main (env : Env) : SessionResult :=
  match env.clientOk with
  | false => ⟨false, [], none, 0, some env.scopedRows⟩
  | true =>
  match env.initialCount with
  | none => ⟨false, [Op.countScope], none, 0, some env.scopedRows⟩
  | some _ =>
  match env.loaded with
  | none => ⟨false, [Op.countScope], none, 0, some env.scopedRows⟩
  | some models =>
  if models.isEmpty then ⟨false, [Op.countScope], none, 0, some env.scopedRows⟩
  else
  let prepared_models := prepare_data_for_insert models
  if prepared_models.isEmpty then ⟨false, [Op.countScope], none, 0, some env.scopedRows⟩
  else
  match env.backupRaises with
  | true => ⟨false, [Op.countScope, Op.selectScope], none, 0, some env.scopedRows⟩
  | false =>
  let backup_data := env.scopedRows
  let del := runDelete env.scopedRows env.precountFails env.deleteRaises env.postcountFails
  let trace2 := [Op.countScope, Op.selectScope] ++ del.2.2
  match del.1 with
  | false => ⟨false, trace2, none, 0, some del.2.1⟩
  | true =>
  let ins := insert_new_data prepared_models env.ins
  let trace3 := trace2 ++ ins.2
  match ins.1 with
  | false =>
      let rb := restore_backup_data backup_data env.restore
      ⟨false, trace3 ++ rb.2, some rb.1, 1, none⟩
  | true =>
  let trace4 := trace3 ++ [Op.countScope]
  match verify_insertion prepared_models.length env.verifyCount with
  | true => ⟨true, trace4, none, 0, none⟩
  | false =>
      let rb := restore_backup_data backup_data env.restore
      ⟨false, trace4 ++ rb.2, some rb.1, 1, none⟩

end ORRefresh

namespace ProdDeploy

/-- `delete_production_OpenRouter_data` (U_deploy_to_ai_models_main.py, lines
187-223): same shape as the working-version delete — fail on a failed
pre-count, succeed without deleting at pre-count zero, else delete and require
the post-delete count to be exactly zero. -/
def delete_production_OpenRouter_data
    (initial_count : Option Nat) (deleteRaises : Bool)
    (remaining_count : Option Nat) : Bool :=
  match initial_count with
  | none => false
  | some 0 => true
  | some (_ + 1) =>
      if deleteRaises then false else decide (remaining_count = some 0)

/-- Store-level wrapper for the production delete stage, with the same single
scoped SQL delete semantics as `ORRefresh.runDelete`. -/
def runDelete (rows : List DbRecord)
    (precountFails deleteRaises postcountFails : Bool) :
    Bool × List DbRecord × List Op :=
  let initial_count : Option Nat := if precountFails then none else some rows.length
  let attempted : Bool := !precountFails && !rows.isEmpty
  let rowsAfter : List DbRecord := if attempted && !deleteRaises then [] else rows
  let remaining_count : Option Nat :=
    if attempted && !deleteRaises then
      (if postcountFails then none else some rowsAfter.length)
    else none
  let ops : List Op :=
    if !attempted then [Op.countScope]
    else if deleteRaises then [Op.countScope, Op.deleteScope]
    else [Op.countScope, Op.deleteScope, Op.countScope]
  (delete_production_OpenRouter_data initial_count deleteRaises remaining_count,
   rowsAfter, ops)

/-- `prepare_data_for_production` (lines 255-285): strip the auto-managed
fields and convert blank strings to null for the two nullable license
fields. -/
def prepare_data_for_production (staging_data : List DbRecord) : List DbRecord :=
  staging_data.map (fun m => blankToNull (cleanRecord m))

/-- `deploy_to_production` (lines 288-361): like `ORRefresh.insert_new_data`
but the individual fallback is accepted only at success rate at least 0.95. -/
def deploy_to_production (models : List DbRecord) (env : InsEnv) : Bool × List Op :=
  if models.isEmpty then (true, [])
  else
    let fallback : Bool × List Op :=
      let successful_deployments := countOk env.singleRes models.length
      (decide (success_rate successful_deployments models ≥ (95 / 100 : ℚ)),
       Op.insertRows models :: models.map (fun m => Op.insertRows [m]))
    match env.bulkOutcome with
    | some n => if n = models.length then (true, [Op.insertRows models]) else fallback
    | none => fallback

/-- `restore_production_backup` (lines 364-440): empty backup returns success
with no store call; otherwise strip auto-managed fields, insert in batches of
50 (per-record fallback when a batch raises), then accept exactly when the
final count query succeeds, is truthy (non-zero), and is at least 90% of the
backup size. -/
def restore_production_backup (backup_data : List DbRecord) (env : RestoreEnv) :
    Bool × List Op :=
  if backup_data.isEmpty then (true, [])
  else
    let clean_backup_data := backup_data.map cleanRecord
    let batches := chunks50 clean_backup_data
    let ops : List Op := restoreOps env 0 batches
    let verdict : Bool :=
      match env.finalCount with
      | some 0 => false
      | some (n + 1) =>
          decide (((n + 1 : Nat) : ℚ) ≥ (backup_data.length : ℚ) * (9 / 10))
      | none => false
    (verdict, ops ++ [Op.countScope])

/-- `verify_production_deployment` (lines 443-469): tolerance is
`max(1, int(expected_count * 0.05))` and the final count is accepted when its
absolute difference from the expected count is within the tolerance; a failed
count query is a verification failure. -/
def verify_production_deployment (expected_count : Nat) (finalCount : Option Nat) :
    Bool :=
  match finalCount with
  | none => false
  | some final_count =>
      let tolerance : Nat := max 1 (Nat.floor ((expected_count : ℚ) * (5 / 100)))
      decide (((final_count : ℤ) - (expected_count : ℤ)).natAbs ≤ tolerance)

/-- Environment of one production deployment session, in program order. -/
structure Env where
  clientOk : Bool
  stagingCount : Option Nat
  prodCount : Option Nat
  stagingRows : List DbRecord
  backupRaises : Bool
  prodRows : List DbRecord
  precountFails : Bool
  deleteRaises : Bool
  postcountFails : Bool
  ins : InsEnv
  verifyCount : Option Nat
  restore : RestoreEnv

/-- `main` (lines 472-573): client init, staging and production counts, load
staging data, prepare, backup production rows (abort on failure), delete
(abort on failure, no rollback), deploy (rollback on failure), verify
(rollback on failure). -/
def main (env : Env) : ORRefresh.SessionResult :=
  match env.clientOk with
  | false => ⟨false, [], none, 0, some env.prodRows⟩
  | true =>
  let t1 : List Op := [Op.stagingRead, Op.countScope]
  match env.stagingCount, env.prodCount with
  | none, _ => ⟨false, t1, none, 0, some env.prodRows⟩
  | some _, none => ⟨false, t1, none, 0, some env.prodRows⟩
  | some 0, some _ => ⟨false, t1, none, 0, some env.prodRows⟩
  | some (_ + 1), some _ =>
  let t2 := t1 ++ [Op.stagingRead]
  if env.stagingRows.isEmpty then ⟨false, t2, none, 0, some env.prodRows⟩
  else
  let prepared_data := prepare_data_for_production env.stagingRows
  if prepared_data.isEmpty then ⟨false, t2, none, 0, some env.prodRows⟩
  else
  let t3 := t2 ++ [Op.selectScope]
  match env.backupRaises with
  | true => ⟨false, t3, none, 0, some env.prodRows⟩
  | false =>
  let backup_data := env.prodRows
  let del := runDelete env.prodRows env.precountFails env.deleteRaises env.postcountFails
  let t4 := t3 ++ del.2.2
  match del.1 with
  | false => ⟨false, t4, none, 0, some del.2.1⟩
  | true =>
  let dep := deploy_to_production prepared_data env.ins
  let t5 := t4 ++ dep.2
  match dep.1 with
  | false =>
      let rb := restore_production_backup backup_data env.restore
      ⟨false, t5 ++ rb.2, some rb.1, 1, none⟩
  | true =>
  let t6 := t5 ++ [Op.countScope]
  match verify_production_deployment prepared_data.length env.verifyCount with
  | true => ⟨true, t6, none, 0, none⟩
  | false =>
      let rb := restore_production_backup backup_data env.restore
      ⟨false, t6 ++ rb.2, some rb.1, 1, none⟩

end ProdDeploy

namespace GoogleRefresh

/-- `backup_existing_data` (google_pipeline/T_supabase_working_version_refresh.py,
lines 115-135): one scoped select; succeeds unless the read raises (the
durable JSON artifact written on success has no further effect on the
session). -/
def backup_existing_data (backupRaises : Bool) : Bool × List Op :=
  (!backupRaises, [Op.selectScope])

/-- `delete_existing_data` (lines 137-159): one scoped delete; returns ok
whenever the call does not raise. When the delete response carries no data
the script queries the remaining scoped count, but that count is interpolated
into a log line only — the verdict never depends on it. -/
def delete_existing_data (deleteRaises responseHasData : Bool)
    (remaining_count : Nat) : Bool × List Op :=
  if deleteRaises then (false, [Op.deleteScope])
  else if responseHasData then (true, [Op.deleteScope])
  else (true, [Op.deleteScope, Op.countScope])

/-- `validate_data_record` (lines 161-172): both required fields must be
truthy and the identity field must equal the expected scope tag "Google". -/
def validate_data_record (record : DbRecord) : Bool :=
  let required_fields := ["human_readable_name", "inference_provider"]
  required_fields.all (fun f => pyTruthy (pyGet record f)) &&
    decide (pyGet record "inference_provider" = some "Google")

/-- `insert_data_bulk` (lines 174-192): one bulk insert of the whole dataset;
succeeds — reporting `len(response.data)` inserted — whenever the call does
not raise and the response data is non-empty, even if fewer rows than
submitted came back. -/
def insert_data_bulk (data : List DbRecord) (bulkOutcome : Option Nat) :
    Bool × Nat × List Op :=
  match bulkOutcome with
  | none => (false, 0, [Op.insertRows data])
  | some 0 => (false, 0, [Op.insertRows data])
  | some (n + 1) => (true, n + 1, [Op.insertRows data])

/-- `insert_data_individual` (lines 194-224): insert one record at a time at
increasing indices; a record failing local validation is recorded as an error
without any network call and the loop continues; network outcomes `noData`
and `raised` are also recorded as errors without stopping the loop. Returns
(inserted count, error count, operations issued); the source keeps error
message strings, abstracted here to their count. -/
def insert_data_individual (f : Nat → CallRes) : Nat → List DbRecord →
    Nat × Nat × List Op
  | _, [] => (0, 0, [])
  | i, record :: rest =>
      let tail := insert_data_individual f (i + 1) rest
      if validate_data_record record then
        match f i with
        | CallRes.ok => (tail.1 + 1, tail.2.1, Op.insertRows [record] :: tail.2.2)
        | CallRes.noData => (tail.1, tail.2.1 + 1, Op.insertRows [record] :: tail.2.2)
        | CallRes.raised => (tail.1, tail.2.1 + 1, Op.insertRows [record] :: tail.2.2)
      else
        (tail.1, tail.2.1 + 1, tail.2.2)

/-- The insert section of `main` (lines 313-322): bulk first, and the
individual fallback runs only when the bulk attempt reported failure. -/
def insertPhase (data : List DbRecord) (bulkOutcome : Option Nat)
    (f : Nat → CallRes) : Nat × List Op :=
  match insert_data_bulk data bulkOutcome with
  | (true, n, ops) => (n, ops)
  | (false, _, ops) =>
      ((insert_data_individual f 0 data).1,
       ops ++ (insert_data_individual f 0 data).2.2)

/-- Environment of one google refresh session, in program order. -/
structure Env where
  clientOk : Bool
  pipelineData : List DbRecord
  backupRaises : Bool
  deleteRaises : Bool
  responseHasData : Bool
  remainingAfterDelete : Nat
  bulkOutcome : Option Nat
  singleRes : Nat → CallRes

/-- `main` (lines 279-349): client init, load CSV, backup — a backup failure
only logs a warning and the session continues — then delete (abort on
failure), then bulk insert with individual fallback; the session succeeds
whenever at least one record was inserted. -/
def main (env : Env) : Bool × List Op :=
  match env.clientOk with
  | false => (false, [])
  | true =>
  if env.pipelineData.isEmpty then (false, [])
  else
  let bk := backup_existing_data env.backupRaises
  let del := delete_existing_data env.deleteRaises env.responseHasData
    env.remainingAfterDelete
  let t1 := bk.2 ++ del.2
  match del.1 with
  | false => (false, t1)
  | true =>
  let ph := insertPhase env.pipelineData env.bulkOutcome env.singleRes
  (decide (0 < ph.1), t1 ++ ph.2)

end GoogleRefresh

/-- Modelled from the spec: the upstream CandidateDataset producer for the
google pipeline (`E_db_schema_normalize.py`, which writes
`E-db-schema-normalize.csv` and is absent from the sources) yields
schema-correct records in which the store-assigned fields never appear. -/
def upstreamCandidateOk (data : List DbRecord) : Prop :=
  ∀ r ∈ data, noAutoFields r = true

/-! ## Record-level helper lemmas -/

lemma blankEntry_fst (kv : String × Option String) :
    (blankEntry kv).1 = kv.1 := by
  obtain ⟨k, v⟩ := kv
  cases v with
  | none => rfl
  | some s =>
      dsimp only [blankEntry]
      split <;> rfl

lemma noAutoFields_blankToNull (r : DbRecord) :
    noAutoFields (blankToNull r) = noAutoFields r := by
  induction r with
  | nil => rfl
  | cons kv tl ih =>
      have h1 : noAutoFields (blankToNull (kv :: tl))
          = ((!(auto_managed_fields.contains (blankEntry kv).1))
            && noAutoFields (blankToNull tl)) := rfl
      have h2 : noAutoFields (kv :: tl)
          = ((!(auto_managed_fields.contains kv.1)) && noAutoFields tl) := rfl
      rw [h1, h2, blankEntry_fst, ih]

lemma noAutoFields_cleanRecord (r : DbRecord) :
    noAutoFields (cleanRecord r) = true := by
  simp only [noAutoFields, cleanRecord, List.all_eq_true]
  intro kv hkv
  exact (List.mem_filter.mp hkv).2

lemma mem_of_mem_chunksAux :
    ∀ (fuel : Nat) (l batch : List DbRecord),
      batch ∈ chunksAux fuel l → ∀ r ∈ batch, r ∈ l := by
  intro fuel
  induction fuel with
  | zero =>
      intro l batch h
      simp [chunksAux] at h
  | succ n ih =>
      intro l batch h r hr
      cases l with
      | nil => simp [chunksAux] at h
      | cons x xs =>
          have e : chunksAux (n + 1) (x :: xs) =
              (x :: xs).take 50 :: chunksAux n ((x :: xs).drop 50) := rfl
          rw [e] at h
          rcases List.mem_cons.mp h with h1 | h2
          · subst h1
            exact List.take_subset _ _ hr
          · exact List.drop_subset _ _ (ih _ _ h2 r hr)

lemma mem_of_mem_chunks50 (l batch : List DbRecord) :
    batch ∈ chunks50 l → ∀ r ∈ batch, r ∈ l :=
  mem_of_mem_chunksAux l.length l batch

lemma restoreOps_payload :
    ∀ (env : RestoreEnv) (i : Nat) (batches : List (List DbRecord))
      (payload : List DbRecord),
      Op.insertRows payload ∈ restoreOps env i batches →
      payload ∈ batches ∨ ∃ b ∈ batches, ∃ r ∈ b, payload = [r] := by
  intro env i batches
  induction batches generalizing i with
  | nil =>
      intro payload h
      simp [restoreOps] at h
  | cons b bs ih =>
      intro payload h
      simp only [restoreOps, List.cons_append, List.mem_cons, List.mem_append] at h
      rcases h with h | h
      · exact Or.inl (by simp [Op.insertRows.injEq] at h; simp [h])
      · rcases h with h | h
        · cases hb : env.batchRes i with
          | raised =>
              rw [hb] at h
              rcases List.mem_map.mp h with ⟨r, hr, hP⟩
              exact Or.inr ⟨b, List.mem_cons_self b bs, r, hr,
                by injection hP.symm⟩
          | inserted n => rw [hb] at h; simp at h
          | noData => rw [hb] at h; simp at h
        · rcases ih (i + 1) payload h with h1 | ⟨b2, hb2, r, hr, hP⟩
          · exact Or.inl (List.mem_cons_of_mem _ h1)
          · exact Or.inr ⟨b2, List.mem_cons_of_mem _ hb2, r, hr, hP⟩

lemma or_restore_payload_noAuto (backup : List DbRecord) (env : RestoreEnv)
    (payload : List DbRecord)
    (h : Op.insertRows payload ∈ (ORRefresh.restore_backup_data backup env).2) :
    ∀ r ∈ payload, noAutoFields r = true := by
  intro r hr
  unfold ORRefresh.restore_backup_data at h
  by_cases hb : backup.isEmpty
  · simp [hb] at h
  · simp only [hb, if_neg, Bool.false_eq_true, not_false_eq_true,
      List.mem_append] at h
    rcases h with h | h
    · rcases restoreOps_payload env 0 _ payload h with hP | ⟨b, hbm, r2, hr2, hP⟩
      · have : r ∈ backup.map cleanRecord :=
          mem_of_mem_chunks50 _ payload hP r hr
        rcases List.mem_map.mp this with ⟨r0, _, hr0⟩
        rw [← hr0, noAutoFields_cleanRecord]
      · subst hP
        have : r2 ∈ backup.map cleanRecord :=
          mem_of_mem_chunks50 _ b hbm r2 hr2
        rcases List.mem_map.mp this with ⟨r0, _, hr0⟩
        have hrr : r = r2 := by simpa using hr
        rw [hrr, ← hr0, noAutoFields_cleanRecord]
    · simp at h

lemma prod_restore_payload_noAuto (backup : List DbRecord) (env : RestoreEnv)
    (payload : List DbRecord)
    (h : Op.insertRows payload ∈ (ProdDeploy.restore_production_backup backup env).2) :
    ∀ r ∈ payload, noAutoFields r = true := by
  intro r hr
  unfold ProdDeploy.restore_production_backup at h
  by_cases hb : backup.isEmpty
  · simp [hb] at h
  · simp only [hb, if_neg, Bool.false_eq_true, not_false_eq_true,
      List.mem_append] at h
    rcases h with h | h
    · rcases restoreOps_payload env 0 _ payload h with hP | ⟨b, hbm, r2, hr2, hP⟩
      · have : r ∈ backup.map cleanRecord :=
          mem_of_mem_chunks50 _ payload hP r hr
        rcases List.mem_map.mp this with ⟨r0, _, hr0⟩
        rw [← hr0, noAutoFields_cleanRecord]
      · subst hP
        have : r2 ∈ backup.map cleanRecord :=
          mem_of_mem_chunks50 _ b hbm r2 hr2
        rcases List.mem_map.mp this with ⟨r0, _, hr0⟩
        have hrr : r = r2 := by simpa using hr
        rw [hrr, ← hr0, noAutoFields_cleanRecord]
    · simp at h

/-! ## Preparation and insert-engine helper lemmas -/

lemma or_prepare_noAuto (models : List DbRecord) (r : DbRecord)
    (h : r ∈ ORRefresh.prepare_data_for_insert models) :
    noAutoFields r = true := by
  rcases List.mem_map.mp h with ⟨m, _, rfl⟩
  rw [noAutoFields_blankToNull]
  exact noAutoFields_cleanRecord m

lemma prod_prepare_noAuto (staging : List DbRecord) (r : DbRecord)
    (h : r ∈ ProdDeploy.prepare_data_for_production staging) :
    noAutoFields r = true := by
  rcases List.mem_map.mp h with ⟨m, _, rfl⟩
  rw [noAutoFields_blankToNull]
  exact noAutoFields_cleanRecord m

lemma or_prepare_isEmpty (models : List DbRecord) :
    (ORRefresh.prepare_data_for_insert models).isEmpty = models.isEmpty := by
  cases models <;> rfl

lemma prod_prepare_isEmpty (staging : List DbRecord) :
    (ProdDeploy.prepare_data_for_production staging).isEmpty = staging.isEmpty := by
  cases staging <;> rfl

lemma or_insert_ops (models : List DbRecord) (env : InsEnv) (h : models ≠ []) :
    (ORRefresh.insert_new_data models env).2 =
      if env.bulkOutcome = some models.length then [Op.insertRows models]
      else Op.insertRows models :: models.map (fun m => Op.insertRows [m]) := by
  have hne : models.isEmpty = false := by
    cases models with
    | nil => exact absurd rfl h
    | cons a l => rfl
  unfold ORRefresh.insert_new_data
  rw [hne]
  cases hb : env.bulkOutcome with
  | none => simp
  | some n =>
      by_cases hn : n = models.length
      · simp [hn]
      · simp [hn, Ne.symm hn]

lemma prod_deploy_ops (models : List DbRecord) (env : InsEnv) (h : models ≠ []) :
    (ProdDeploy.deploy_to_production models env).2 =
      if env.bulkOutcome = some models.length then [Op.insertRows models]
      else Op.insertRows models :: models.map (fun m => Op.insertRows [m]) := by
  have hne : models.isEmpty = false := by
    cases models with
    | nil => exact absurd rfl h
    | cons a l => rfl
  unfold ProdDeploy.deploy_to_production
  rw [hne]
  cases hb : env.bulkOutcome with
  | none => simp
  | some n =>
      by_cases hn : n = models.length
      · simp [hn]
      · simp [hn, Ne.symm hn]

lemma or_insert_empty (env : InsEnv) :
    ORRefresh.insert_new_data [] env = (true, []) := rfl

lemma prod_deploy_empty (env : InsEnv) :
    ProdDeploy.deploy_to_production [] env = (true, []) := rfl

lemma or_insert_payload_subset (models : List DbRecord) (env : InsEnv)
    (payload : List DbRecord)
    (h : Op.insertRows payload ∈ (ORRefresh.insert_new_data models env).2) :
    ∀ r ∈ payload, r ∈ models := by
  intro r hr
  by_cases hm : models = []
  · subst hm
    simp [or_insert_empty] at h
  · rw [or_insert_ops models env hm] at h
    by_cases hb : env.bulkOutcome = some models.length
    · rw [if_pos hb] at h
      have : payload = models := by simpa using h
      rw [← this]; exact hr
    · rw [if_neg hb] at h
      rcases List.mem_cons.mp h with h1 | h2
      · have : payload = models := by simpa using h1
        rw [← this]; exact hr
      · rcases List.mem_map.mp h2 with ⟨m, hm2, hP⟩
        have : payload = [m] := by injection hP.symm
        subst this
        have : r = m := by simpa using hr
        rw [this]; exact hm2

lemma prod_deploy_payload_subset (models : List DbRecord) (env : InsEnv)
    (payload : List DbRecord)
    (h : Op.insertRows payload ∈ (ProdDeploy.deploy_to_production models env).2) :
    ∀ r ∈ payload, r ∈ models := by
  intro r hr
  by_cases hm : models = []
  · subst hm
    simp [prod_deploy_empty] at h
  · rw [prod_deploy_ops models env hm] at h
    by_cases hb : env.bulkOutcome = some models.length
    · rw [if_pos hb] at h
      have : payload = models := by simpa using h
      rw [← this]; exact hr
    · rw [if_neg hb] at h
      rcases List.mem_cons.mp h with h1 | h2
      · have : payload = models := by simpa using h1
        rw [← this]; exact hr
      · rcases List.mem_map.mp h2 with ⟨m, hm2, hP⟩
        have : payload = [m] := by injection hP.symm
        subst this
        have : r = m := by simpa using hr
        rw [this]; exact hm2

/-! ## Restore verdict helper lemmas -/

lemma or_restore_empty (env : RestoreEnv) :
    ORRefresh.restore_backup_data [] env = (true, []) := rfl

lemma prod_restore_empty (env : RestoreEnv) :
    ProdDeploy.restore_production_backup [] env = (true, []) := rfl

lemma or_restore_verdict (backup : List DbRecord) (env : RestoreEnv)
    (h : backup ≠ []) :
    ((ORRefresh.restore_backup_data backup env).1 = true ↔
      ∃ n, env.finalCount = some n ∧ 95 * backup.length ≤ 100 * n) := by
  have hne : backup.isEmpty = false := by
    cases backup with
    | nil => exact absurd rfl h
    | cons a l => rfl
  unfold ORRefresh.restore_backup_data
  rw [hne]
  simp only [Bool.false_eq_true, if_false]
  cases hf : env.finalCount with
  | none => simp
  | some n =>
      simp only [Option.some.injEq, decide_eq_true_eq]
      constructor
      · intro hq
        refine ⟨n, rfl, ?_⟩
        have h100 : (0 : ℚ) < 100 := by norm_num
        have e : (backup.length : ℚ) * (95 / 100) = (95 * backup.length : ℚ) / 100 := by
          ring
        rw [ge_iff_le, e, div_le_iff h100] at hq
        have : (95 * backup.length : ℚ) ≤ (100 * n : ℚ) := by
          calc (95 * backup.length : ℚ) ≤ (n : ℚ) * 100 := hq
          _ = (100 * n : ℚ) := by ring
        exact_mod_cast this
      · rintro ⟨m, hm, hle⟩
        subst hm
        have h100 : (0 : ℚ) < 100 := by norm_num
        have e : (backup.length : ℚ) * (95 / 100) = (95 * backup.length : ℚ) / 100 := by
          ring
        rw [ge_iff_le, e, div_le_iff h100]
        have hc : (95 * backup.length : ℚ) ≤ (100 * n : ℚ) := by exact_mod_cast hle
        calc (95 * backup.length : ℚ) ≤ (100 * n : ℚ) := hc
        _ = (n : ℚ) * 100 := by ring

lemma prod_restore_verdict (backup : List DbRecord) (env : RestoreEnv)
    (h : backup ≠ []) :
    ((ProdDeploy.restore_production_backup backup env).1 = true ↔
      ∃ n, env.finalCount = some n ∧ 0 < n ∧ 90 * backup.length ≤ 100 * n) := by
  have hne : backup.isEmpty = false := by
    cases backup with
    | nil => exact absurd rfl h
    | cons a l => rfl
  unfold ProdDeploy.restore_production_backup
  rw [hne]
  simp only [Bool.false_eq_true, if_false]
  cases hf : env.finalCount with
  | none => simp
  | some n =>
      cases n with
      | zero => simp
      | succ k =>
          simp only [Option.some.injEq, decide_eq_true_eq]
          constructor
          · intro hq
            refine ⟨k + 1, rfl, Nat.succ_pos k, ?_⟩
            have h100 : (0 : ℚ) < 100 := by norm_num
            have e : (backup.length : ℚ) * (9 / 10) = (90 * backup.length : ℚ) / 100 := by
              ring
            rw [ge_iff_le, e, div_le_iff h100] at hq
            have : (90 * backup.length : ℚ) ≤ (100 * (k + 1) : ℚ) := by
              calc (90 * backup.length : ℚ) ≤ ((k + 1 : ℕ) : ℚ) * 100 := hq
              _ = (100 * (k + 1) : ℚ) := by push_cast; ring
            exact_mod_cast this
          · rintro ⟨m, hm, _, hle⟩
            subst hm
            have h100 : (0 : ℚ) < 100 := by norm_num
            have e : (backup.length : ℚ) * (9 / 10) = (90 * backup.length : ℚ) / 100 := by
              ring
            rw [ge_iff_le, e, div_le_iff h100]
            have : (90 * backup.length : ℚ) ≤ (100 * (k + 1) : ℚ) := by exact_mod_cast hle
            calc (90 * backup.length : ℚ) ≤ (100 * (k + 1) : ℚ) := this
            _ = ((k + 1 : ℕ) : ℚ) * 100 := by push_cast; ring

/-! ## Verification and delete helper lemmas -/

lemma prod_verify_floor (e : ℕ) :
    Nat.floor ((e : ℚ) * (5 / 100)) = 5 * e / 100 := by
  have e1 : (e : ℚ) * (5 / 100) = ((5 * e : ℕ) : ℚ) / ((100 : ℕ) : ℚ) := by
    push_cast
    ring
  rw [e1, Nat.floor_div_nat, Nat.floor_natCast]

lemma prod_verify_tolerance (e a : ℕ) :
    (ProdDeploy.verify_production_deployment e (some a) = true ↔
      ((a : ℤ) - (e : ℤ)).natAbs ≤ max 1 (5 * e / 100)) := by
  unfold ProdDeploy.verify_production_deployment
  simp only [decide_eq_true_eq]
  rw [prod_verify_floor]

lemma or_delete_ok_characterization (ic : Option Nat) (dr : Bool) (rc : Option Nat)
    (h : ORRefresh.delete_existing_openrouter_data ic dr rc = true) :
    ic = some 0 ∨ rc = some 0 := by
  unfold ORRefresh.delete_existing_openrouter_data at h
  cases ic with
  | none => simp at h
  | some n =>
      cases n with
      | zero => exact Or.inl rfl
      | succ k =>
          cases dr with
          | true => simp at h
          | false =>
              simp only [Bool.false_eq_true, if_false, decide_eq_true_eq] at h
              exact Or.inr h

lemma or_delete_residual_rows (n m : ℕ) :
    ORRefresh.delete_existing_openrouter_data (some (n + 1)) false (some (m + 1)) = false := by
  unfold ORRefresh.delete_existing_openrouter_data
  simp

lemma prod_delete_ok_characterization (ic : Option Nat) (dr : Bool) (rc : Option Nat)
    (h : ProdDeploy.delete_production_OpenRouter_data ic dr rc = true) :
    ic = some 0 ∨ rc = some 0 := by
  unfold ProdDeploy.delete_production_OpenRouter_data at h
  cases ic with
  | none => simp at h
  | some n =>
      cases n with
      | zero => exact Or.inl rfl
      | succ k =>
          cases dr with
          | true => simp at h
          | false =>
              simp only [Bool.false_eq_true, if_false, decide_eq_true_eq] at h
              exact Or.inr h

lemma prod_delete_residual_rows (n m : ℕ) :
    ProdDeploy.delete_production_OpenRouter_data (some (n + 1)) false (some (m + 1)) = false := by
  unfold ProdDeploy.delete_production_OpenRouter_data
  simp

lemma g_delete_ok_whenever_no_raise (hasData : Bool) (remaining : ℕ) :
    (GoogleRefresh.delete_existing_data false hasData remaining).1 = true := by
  cases hasData <;> rfl

lemma or_runDelete_ops_no_insert (rows : List DbRecord) (p d q : Bool)
    (payload : List DbRecord) :
    Op.insertRows payload ∉ (ORRefresh.runDelete rows p d q).2.2 := by
  unfold ORRefresh.runDelete
  dsimp only
  split_ifs <;> simp

lemma prod_runDelete_ops_no_insert (rows : List DbRecord) (p d q : Bool)
    (payload : List DbRecord) :
    Op.insertRows payload ∉ (ProdDeploy.runDelete rows p d q).2.2 := by
  unfold ProdDeploy.runDelete
  dsimp only
  split_ifs <;> simp

/-! ## Google individual-insert helper lemmas -/

lemma g_insertPhase_partial (data : List DbRecord) (f : Nat → CallRes) (n : ℕ) :
    GoogleRefresh.insertPhase data (some (n + 1)) f = (n + 1, [Op.insertRows data]) := rfl

lemma g_indiv_skip (f : Nat → CallRes) (i : ℕ) (r : DbRecord) (rs : List DbRecord)
    (h : GoogleRefresh.validate_data_record r = false) :
    GoogleRefresh.insert_data_individual f i (r :: rs) =
      ((GoogleRefresh.insert_data_individual f (i + 1) rs).1,
       (GoogleRefresh.insert_data_individual f (i + 1) rs).2.1 + 1,
       (GoogleRefresh.insert_data_individual f (i + 1) rs).2.2) := by
  simp [GoogleRefresh.insert_data_individual, h]

lemma g_indiv_payload (f : Nat → CallRes) :
    ∀ (i : ℕ) (data : List DbRecord) (payload : List DbRecord),
      Op.insertRows payload ∈ (GoogleRefresh.insert_data_individual f i data).2.2 →
      ∃ r, payload = [r] ∧ r ∈ data ∧ GoogleRefresh.validate_data_record r = true := by
  intro i data
  induction data generalizing i with
  | nil =>
      intro payload h
      simp [GoogleRefresh.insert_data_individual] at h
  | cons r rs ih =>
      intro payload h
      by_cases hv : GoogleRefresh.validate_data_record r = true
      · cases hfi : f i with
        | ok =>
            simp only [GoogleRefresh.insert_data_individual, hv, if_true, hfi] at h
            rcases List.mem_cons.mp h with h1 | h2
            · exact ⟨r, by injection h1, List.mem_cons_self r rs, hv⟩
            · rcases ih (i + 1) payload h2 with ⟨r2, hP, hr2, hv2⟩
              exact ⟨r2, hP, List.mem_cons_of_mem _ hr2, hv2⟩
        | noData =>
            simp only [GoogleRefresh.insert_data_individual, hv, if_true, hfi] at h
            rcases List.mem_cons.mp h with h1 | h2
            · exact ⟨r, by injection h1, List.mem_cons_self r rs, hv⟩
            · rcases ih (i + 1) payload h2 with ⟨r2, hP, hr2, hv2⟩
              exact ⟨r2, hP, List.mem_cons_of_mem _ hr2, hv2⟩
        | raised =>
            simp only [GoogleRefresh.insert_data_individual, hv, if_true, hfi] at h
            rcases List.mem_cons.mp h with h1 | h2
            · exact ⟨r, by injection h1, List.mem_cons_self r rs, hv⟩
            · rcases ih (i + 1) payload h2 with ⟨r2, hP, hr2, hv2⟩
              exact ⟨r2, hP, List.mem_cons_of_mem _ hr2, hv2⟩
      · have hv2 : GoogleRefresh.validate_data_record r = false := by
          cases hvv : GoogleRefresh.validate_data_record r
          · rfl
          · exact absurd hvv hv
        rw [g_indiv_skip f i r rs hv2] at h
        rcases ih (i + 1) payload h with ⟨r2, hP, hr2, hvr⟩
        exact ⟨r2, hP, List.mem_cons_of_mem _ hr2, hvr⟩

lemma g_bulk_payload (data : List DbRecord) (bo : Option Nat)
    (payload : List DbRecord)
    (h : Op.insertRows payload ∈ (GoogleRefresh.insert_data_bulk data bo).2.2) :
    payload = data := by
  unfold GoogleRefresh.insert_data_bulk at h
  cases bo with
  | none => simpa using h
  | some n => cases n <;> simpa using h

/-! ## Session-level helper lemmas -/

lemma or_main_backup_fail (env : ORRefresh.Env) (h : env.backupRaises = true) :
    (ORRefresh.main env).ok = false ∧
    (ORRefresh.main env).restoreInvocations = 0 ∧
    Op.deleteScope ∉ (ORRefresh.main env).trace ∧
    ∀ p, Op.insertRows p ∉ (ORRefresh.main env).trace := by
  obtain ⟨co, ic, ld, br, rows, pf, dr, qf, insE, vc, rst⟩ := env
  dsimp only at h
  subst h
  cases co with
  | false => simp [ORRefresh.main]
  | true =>
      cases ic with
      | none => simp [ORRefresh.main]
      | some c =>
          cases ld with
          | none => simp [ORRefresh.main]
          | some models =>
              by_cases hm : models.isEmpty
              · simp [ORRefresh.main, hm]
              · have hm2 : models.isEmpty = false := by
                  cases hmm : models.isEmpty
                  · rfl
                  · exact absurd hmm hm
                simp [ORRefresh.main, hm2, or_prepare_isEmpty]

lemma or_main_delete_gate (env : ORRefresh.Env)
    (h : Op.deleteScope ∈ (ORRefresh.main env).trace) :
    env.backupRaises = false := by
  cases hb : env.backupRaises
  · rfl
  · exact absurd h (or_main_backup_fail env hb).2.2.1

lemma or_main_delete_fail (env : ORRefresh.Env)
    (hdf : (ORRefresh.runDelete env.scopedRows env.precountFails env.deleteRaises
      env.postcountFails).1 = false) :
    (ORRefresh.main env).ok = false ∧
    (ORRefresh.main env).restoreInvocations = 0 ∧
    (ORRefresh.main env).rollbackReported = none ∧
    (∀ p, Op.insertRows p ∉ (ORRefresh.main env).trace) ∧
    ((ORRefresh.main env).rowsAtAbort = none ∨
      (ORRefresh.main env).rowsAtAbort =
        some (ORRefresh.runDelete env.scopedRows env.precountFails env.deleteRaises
          env.postcountFails).2.1 ∨
      (ORRefresh.main env).rowsAtAbort = some env.scopedRows) := by
  obtain ⟨co, ic, ld, br, rows, pf, dr, qf, insE, vc, rst⟩ := env
  dsimp only at hdf ⊢
  cases co with
  | false => simp [ORRefresh.main]
  | true =>
      cases ic with
      | none => simp [ORRefresh.main]
      | some c =>
          cases ld with
          | none => simp [ORRefresh.main]
          | some models =>
              by_cases hm : models.isEmpty
              · simp [ORRefresh.main, hm]
              · have hm2 : models.isEmpty = false := by
                  cases hmm : models.isEmpty
                  · rfl
                  · exact absurd hmm hm
                cases br with
                | true => simp [ORRefresh.main, hm2, or_prepare_isEmpty]
                | false =>
                    have hmain : ORRefresh.main
                        ⟨true, some c, some models, false, rows, pf, dr, qf, insE, vc, rst⟩ =
                        ⟨false,
                         Op.countScope :: Op.selectScope ::
                           (ORRefresh.runDelete rows pf dr qf).2.2,
                         none, 0,
                         some (ORRefresh.runDelete rows pf dr qf).2.1⟩ := by
                      simp [ORRefresh.main, hm2, or_prepare_isEmpty, hdf]
                    rw [hmain]
                    refine ⟨rfl, rfl, rfl, ?_, Or.inr (Or.inl rfl)⟩
                    intro p hp
                    rcases List.mem_cons.mp hp with h1 | hp2
                    · exact Op.noConfusion h1
                    · rcases List.mem_cons.mp hp2 with h1 | h2
                      · exact Op.noConfusion h1
                      · exact or_runDelete_ops_no_insert rows pf dr qf p h2

lemma or_main_rollback (env : ORRefresh.Env) (b : Bool)
    (h : (ORRefresh.main env).rollbackReported = some b) :
    (ORRefresh.main env).ok = false ∧
    (ORRefresh.main env).restoreInvocations = 1 ∧
    b = (ORRefresh.restore_backup_data env.scopedRows env.restore).1 := by
  obtain ⟨co, ic, ld, br, rows, pf, dr, qf, insE, vc, rst⟩ := env
  dsimp only at h ⊢
  cases co with
  | false => simp [ORRefresh.main] at h
  | true =>
      cases ic with
      | none => simp [ORRefresh.main] at h
      | some c =>
          cases ld with
          | none => simp [ORRefresh.main] at h
          | some models =>
              by_cases hm : models.isEmpty
              · simp [ORRefresh.main, hm] at h
              · have hm2 : models.isEmpty = false := by
                  cases hmm : models.isEmpty
                  · rfl
                  · exact absurd hmm hm
                cases br with
                | true => simp [ORRefresh.main, hm2, or_prepare_isEmpty] at h
                | false =>
                    cases hdel : (ORRefresh.runDelete rows pf dr qf).1 with
                    | false =>
                        simp [ORRefresh.main, hm2, or_prepare_isEmpty, hdel] at h
                    | true =>
                        cases hins : (ORRefresh.insert_new_data
                            (ORRefresh.prepare_data_for_insert models) insE).1 with
                        | false =>
                            have hmain : ORRefresh.main
                                ⟨true, some c, some models, false, rows, pf, dr, qf,
                                  insE, vc, rst⟩ =
                                ⟨false,
                                 (Op.countScope :: Op.selectScope ::
                                    (ORRefresh.runDelete rows pf dr qf).2.2 ++
                                  (ORRefresh.insert_new_data
                                    (ORRefresh.prepare_data_for_insert models) insE).2) ++
                                  (ORRefresh.restore_backup_data rows rst).2,
                                 some (ORRefresh.restore_backup_data rows rst).1,
                                 1, none⟩ := by
                              simp [ORRefresh.main, hm2, or_prepare_isEmpty, hdel, hins]
                            rw [hmain] at h
                            refine ⟨by rw [hmain], by rw [hmain], ?_⟩
                            have hb : some ((ORRefresh.restore_backup_data rows rst).1)
                                = some b := h
                            injection hb with hb2
                            exact hb2.symm
                        | true =>
                            cases hver : ORRefresh.verify_insertion
                                (ORRefresh.prepare_data_for_insert models).length vc with
                            | false =>
                                have hmain : ORRefresh.main
                                    ⟨true, some c, some models, false, rows, pf, dr, qf,
                                      insE, vc, rst⟩ =
                                    ⟨false,
                                     ((Op.countScope :: Op.selectScope ::
                                        (ORRefresh.runDelete rows pf dr qf).2.2 ++
                                      (ORRefresh.insert_new_data
                                        (ORRefresh.prepare_data_for_insert models) insE).2) ++
                                      [Op.countScope]) ++
                                      (ORRefresh.restore_backup_data rows rst).2,
                                     some (ORRefresh.restore_backup_data rows rst).1,
                                     1, none⟩ := by
                                  simp [ORRefresh.main, hm2, or_prepare_isEmpty, hdel,
                                    hins, hver]
                                rw [hmain] at h
                                refine ⟨by rw [hmain], by rw [hmain], ?_⟩
                                have hb : some ((ORRefresh.restore_backup_data rows rst).1)
                                    = some b := h
                                injection hb with hb2
                                exact hb2.symm
                            | true =>
                                simp [ORRefresh.main, hm2, or_prepare_isEmpty,
                                  hdel, hins, hver] at h

lemma prod_main_backup_fail (env : ProdDeploy.Env) (h : env.backupRaises = true) :
    (ProdDeploy.main env).ok = false ∧
    (ProdDeploy.main env).restoreInvocations = 0 ∧
    Op.deleteScope ∉ (ProdDeploy.main env).trace ∧
    ∀ p, Op.insertRows p ∉ (ProdDeploy.main env).trace := by
  obtain ⟨co, sc, pc, srows, br, prows, pf, dr, qf, insE, vc, rst⟩ := env
  dsimp only at h
  subst h
  cases co with
  | false => simp [ProdDeploy.main]
  | true =>
      cases sc with
      | none => simp [ProdDeploy.main]
      | some n =>
          cases pc with
          | none => cases n <;> simp [ProdDeploy.main]
          | some m =>
              cases n with
              | zero => simp [ProdDeploy.main]
              | succ k =>
                  by_cases hs : srows.isEmpty
                  · simp [ProdDeploy.main, hs]
                  · have hs2 : srows.isEmpty = false := by
                      cases hss : srows.isEmpty
                      · rfl
                      · exact absurd hss hs
                    simp [ProdDeploy.main, hs2, prod_prepare_isEmpty]

lemma prod_main_delete_gate (env : ProdDeploy.Env)
    (h : Op.deleteScope ∈ (ProdDeploy.main env).trace) :
    env.backupRaises = false := by
  cases hb : env.backupRaises
  · rfl
  · exact absurd h (prod_main_backup_fail env hb).2.2.1

lemma prod_main_delete_fail (env : ProdDeploy.Env)
    (hdf : (ProdDeploy.runDelete env.prodRows env.precountFails env.deleteRaises
      env.postcountFails).1 = false) :
    (ProdDeploy.main env).ok = false ∧
    (ProdDeploy.main env).restoreInvocations = 0 ∧
    (ProdDeploy.main env).rollbackReported = none ∧
    (∀ p, Op.insertRows p ∉ (ProdDeploy.main env).trace) ∧
    ((ProdDeploy.main env).rowsAtAbort = none ∨
      (ProdDeploy.main env).rowsAtAbort =
        some (ProdDeploy.runDelete env.prodRows env.precountFails env.deleteRaises
          env.postcountFails).2.1 ∨
      (ProdDeploy.main env).rowsAtAbort = some env.prodRows) := by
  obtain ⟨co, sc, pc, srows, br, prows, pf, dr, qf, insE, vc, rst⟩ := env
  dsimp only at hdf ⊢
  cases co with
  | false => simp [ProdDeploy.main]
  | true =>
      cases sc with
      | none => simp [ProdDeploy.main]
      | some n =>
          cases pc with
          | none => cases n <;> simp [ProdDeploy.main]
          | some m =>
              cases n with
              | zero => simp [ProdDeploy.main]
              | succ k =>
                  by_cases hs : srows.isEmpty
                  · simp [ProdDeploy.main, hs]
                  · have hs2 : srows.isEmpty = false := by
                      cases hss : srows.isEmpty
                      · rfl
                      · exact absurd hss hs
                    cases br with
                    | true => simp [ProdDeploy.main, hs2, prod_prepare_isEmpty]
                    | false =>
                        have hmain : ProdDeploy.main
                            ⟨true, some (k + 1), some m, srows, false, prows,
                              pf, dr, qf, insE, vc, rst⟩ =
                            ⟨false,
                             Op.stagingRead :: Op.countScope :: Op.stagingRead ::
                               Op.selectScope ::
                               (ProdDeploy.runDelete prows pf dr qf).2.2,
                             none, 0,
                             some (ProdDeploy.runDelete prows pf dr qf).2.1⟩ := by
                          simp [ProdDeploy.main, hs2, prod_prepare_isEmpty, hdf]
                        rw [hmain]
                        refine ⟨rfl, rfl, rfl, ?_, Or.inr (Or.inl rfl)⟩
                        intro p hp
                        rcases List.mem_cons.mp hp with h1 | hp2
                        · exact Op.noConfusion h1
                        · rcases List.mem_cons.mp hp2 with h1 | hp3
                          · exact Op.noConfusion h1
                          · rcases List.mem_cons.mp hp3 with h1 | hp4
                            · exact Op.noConfusion h1
                            · rcases List.mem_cons.mp hp4 with h1 | h2
                              · exact Op.noConfusion h1
                              · exact prod_runDelete_ops_no_insert prows pf dr qf p h2

lemma prod_main_rollback (env : ProdDeploy.Env) (b : Bool)
    (h : (ProdDeploy.main env).rollbackReported = some b) :
    (ProdDeploy.main env).ok = false ∧
    (ProdDeploy.main env).restoreInvocations = 1 ∧
    b = (ProdDeploy.restore_production_backup env.prodRows env.restore).1 := by
  obtain ⟨co, sc, pc, srows, br, prows, pf, dr, qf, insE, vc, rst⟩ := env
  dsimp only at h ⊢
  cases co with
  | false => simp [ProdDeploy.main] at h
  | true =>
      cases sc with
      | none => simp [ProdDeploy.main] at h
      | some n =>
          cases pc with
          | none => cases n <;> simp [ProdDeploy.main] at h
          | some m =>
              cases n with
              | zero => simp [ProdDeploy.main] at h
              | succ k =>
                  by_cases hs : srows.isEmpty
                  · simp [ProdDeploy.main, hs] at h
                  · have hs2 : srows.isEmpty = false := by
                      cases hss : srows.isEmpty
                      · rfl
                      · exact absurd hss hs
                    cases br with
                    | true => simp [ProdDeploy.main, hs2, prod_prepare_isEmpty] at h
                    | false =>
                        cases hdel : (ProdDeploy.runDelete prows pf dr qf).1 with
                        | false =>
                            simp [ProdDeploy.main, hs2, prod_prepare_isEmpty, hdel] at h
                        | true =>
                            cases hins : (ProdDeploy.deploy_to_production
                                (ProdDeploy.prepare_data_for_production srows) insE).1 with
                            | false =>
                                have hmain : ProdDeploy.main
                                    ⟨true, some (k + 1), some m, srows, false, prows,
                                      pf, dr, qf, insE, vc, rst⟩ =
                                    ⟨false,
                                     (Op.stagingRead :: Op.countScope :: Op.stagingRead ::
                                        Op.selectScope ::
                                        (ProdDeploy.runDelete prows pf dr qf).2.2 ++
                                      (ProdDeploy.deploy_to_production
                                        (ProdDeploy.prepare_data_for_production srows)
                                        insE).2) ++
                                      (ProdDeploy.restore_production_backup prows rst).2,
                                     some (ProdDeploy.restore_production_backup prows rst).1,
                                     1, none⟩ := by
                                  simp [ProdDeploy.main, hs2, prod_prepare_isEmpty,
                                    hdel, hins]
                                rw [hmain] at h
                                refine ⟨by rw [hmain], by rw [hmain], ?_⟩
                                have hb : some ((ProdDeploy.restore_production_backup
                                    prows rst).1) = some b := h
                                injection hb with hb2
                                exact hb2.symm
                            | true =>
                                cases hver : ProdDeploy.verify_production_deployment
                                    (ProdDeploy.prepare_data_for_production srows).length
                                    vc with
                                | false =>
                                    have hmain : ProdDeploy.main
                                        ⟨true, some (k + 1), some m, srows, false, prows,
                                          pf, dr, qf, insE, vc, rst⟩ =
                                        ⟨false,
                                         ((Op.stagingRead :: Op.countScope ::
                                            Op.stagingRead :: Op.selectScope ::
                                            (ProdDeploy.runDelete prows pf dr qf).2.2 ++
                                          (ProdDeploy.deploy_to_production
                                            (ProdDeploy.prepare_data_for_production srows)
                                            insE).2) ++
                                          [Op.countScope]) ++
                                          (ProdDeploy.restore_production_backup prows rst).2,
                                         some (ProdDeploy.restore_production_backup
                                           prows rst).1,
                                         1, none⟩ := by
                                      simp [ProdDeploy.main, hs2, prod_prepare_isEmpty,
                                        hdel, hins, hver]
                                    rw [hmain] at h
                                    refine ⟨by rw [hmain], by rw [hmain], ?_⟩
                                    have hb : some ((ProdDeploy.restore_production_backup
                                        prows rst).1) = some b := h
                                    injection hb with hb2
                                    exact hb2.symm
                                | true =>
                                    simp [ProdDeploy.main, hs2, prod_prepare_isEmpty,
                                      hdel, hins, hver] at h

lemma g_main_deletes_despite_backup_failure (env : GoogleRefresh.Env)
    (hc : env.clientOk = true) (hd : env.pipelineData.isEmpty = false) :
    Op.deleteScope ∈ (GoogleRefresh.main env).2 := by
  obtain ⟨co, data, br, dr, hdta, rem, bo, f⟩ := env
  dsimp only at hc hd ⊢
  subst hc
  cases dr with
  | true =>
      simp [GoogleRefresh.main, hd, GoogleRefresh.backup_existing_data,
        GoogleRefresh.delete_existing_data]
  | false =>
      cases hdta with
      | true =>
          simp [GoogleRefresh.main, hd, GoogleRefresh.backup_existing_data,
            GoogleRefresh.delete_existing_data]
      | false =>
          simp [GoogleRefresh.main, hd, GoogleRefresh.backup_existing_data,
            GoogleRefresh.delete_existing_data]

lemma g_insertPhase_payload (data : List DbRecord) (bo : Option Nat)
    (f : Nat → CallRes) (payload : List DbRecord)
    (h : Op.insertRows payload ∈ (GoogleRefresh.insertPhase data bo f).2) :
    payload = data ∨ ∃ r, payload = [r] ∧ r ∈ data := by
  unfold GoogleRefresh.insertPhase at h
  rcases hbulk : GoogleRefresh.insert_data_bulk data bo with ⟨b, n, ops⟩
  have hops : ops = (GoogleRefresh.insert_data_bulk data bo).2.2 := by rw [hbulk]
  rw [hbulk] at h
  cases b with
  | true =>
      dsimp only at h
      rw [hops] at h
      exact Or.inl (g_bulk_payload data bo payload h)
  | false =>
      dsimp only at h
      rcases List.mem_append.mp h with h1 | h2
      · rw [hops] at h1
        exact Or.inl (g_bulk_payload data bo payload h1)
      · rcases g_indiv_payload f 0 data payload h2 with ⟨r, hP, hr, _⟩
        exact Or.inr ⟨r, hP, hr⟩

lemma or_runDelete_preserves (rows : List DbRecord) (p d q : Bool)
    (h : p = true ∨ d = true) :
    (ORRefresh.runDelete rows p d q).2.1 = rows := by
  unfold ORRefresh.runDelete
  rcases h with h | h
  · subst h
    simp
  · subst h
    simp

lemma prod_runDelete_preserves (rows : List DbRecord) (p d q : Bool)
    (h : p = true ∨ d = true) :
    (ProdDeploy.runDelete rows p d q).2.1 = rows := by
  unfold ProdDeploy.runDelete
  rcases h with h | h
  · subst h
    simp
  · subst h
    simp

/-! ## Concrete records and environments used by counterexamples and witnesses -/

/-- A well-formed OpenRouter record without auto-managed fields. -/
def sampleRec : DbRecord :=
  [("inference_provider", some "OpenRouter"), ("human_readable_name", some "Model A")]

/-- A well-formed Google record without auto-managed fields. -/
def gRec : DbRecord :=
  [("inference_provider", some "Google"), ("human_readable_name", some "Gemini Pro")]

/-- A second well-formed Google record. -/
def gRec2 : DbRecord :=
  [("inference_provider", some "Google"), ("human_readable_name", some "Gemini Flash")]

/-- A google refresh session environment whose snapshot read fails while every
later call succeeds. -/
def gEnvC1 : GoogleRefresh.Env :=
  { clientOk := true
    pipelineData := [gRec]
    backupRaises := true
    deleteRaises := false
    responseHasData := true
    remainingAfterDelete := 0
    bulkOutcome := some 1
    singleRes := fun _ => CallRes.ok }

/-- A google refresh session environment where the bulk insert of two records
returns a single row. -/
def gEnvC4 : GoogleRefresh.Env :=
  { clientOk := true
    pipelineData := [gRec, gRec2]
    backupRaises := false
    deleteRaises := false
    responseHasData := true
    remainingAfterDelete := 0
    bulkOutcome := some 1
    singleRes := fun _ => CallRes.ok }

/-- A snapshot of twenty records. -/
def backup20 : List DbRecord := List.replicate 20 sampleRec

/-- A restore environment whose final scoped count lands on exactly 90% of a
twenty-record snapshot. -/
def renvC2 : RestoreEnv :=
  { batchRes := fun _ => BatchRes.inserted 18
    finalCount := some 18 }

/-- An openrouter refresh environment in which the delete call succeeds but the
post-delete verification count query fails. -/
def envC7 : ORRefresh.Env :=
  { clientOk := true
    initialCount := some 1
    loaded := some [sampleRec]
    backupRaises := false
    scopedRows := [sampleRec]
    precountFails := false
    deleteRaises := false
    postcountFails := true
    ins := { bulkOutcome := some 1, singleRes := fun _ => CallRes.ok }
    verifyCount := some 1
    restore := { batchRes := fun _ => BatchRes.inserted 1, finalCount := some 1 } }

/-- An openrouter refresh environment whose snapshot read fails. -/
def envC1w : ORRefresh.Env :=
  { clientOk := true
    initialCount := some 0
    loaded := some [sampleRec]
    backupRaises := true
    scopedRows := []
    precountFails := false
    deleteRaises := false
    postcountFails := false
    ins := { bulkOutcome := some 1, singleRes := fun _ => CallRes.ok }
    verifyCount := some 1
    restore := { batchRes := fun _ => BatchRes.noData, finalCount := some 0 } }

/-- A production deployment environment whose snapshot read fails. -/
def envC1wProd : ProdDeploy.Env :=
  { clientOk := true
    stagingCount := some 1
    prodCount := some 0
    stagingRows := [sampleRec]
    backupRaises := true
    prodRows := []
    precountFails := false
    deleteRaises := false
    postcountFails := false
    ins := { bulkOutcome := some 1, singleRes := fun _ => CallRes.ok }
    verifyCount := some 1
    restore := { batchRes := fun _ => BatchRes.noData, finalCount := some 0 } }

/-- An openrouter refresh environment that reaches the verify stage and fails
it, triggering a rollback from an empty snapshot. -/
def envC2w : ORRefresh.Env :=
  { clientOk := true
    initialCount := some 0
    loaded := some [sampleRec]
    backupRaises := false
    scopedRows := []
    precountFails := false
    deleteRaises := false
    postcountFails := false
    ins := { bulkOutcome := some 1, singleRes := fun _ => CallRes.ok }
    verifyCount := some 5
    restore := { batchRes := fun _ => BatchRes.noData, finalCount := some 0 } }

/-- An openrouter refresh environment whose delete stage fails at the
pre-delete count. -/
def envC7w : ORRefresh.Env :=
  { clientOk := true
    initialCount := some 1
    loaded := some [sampleRec]
    backupRaises := false
    scopedRows := [sampleRec]
    precountFails := true
    deleteRaises := false
    postcountFails := false
    ins := { bulkOutcome := some 1, singleRes := fun _ => CallRes.ok }
    verifyCount := some 1
    restore := { batchRes := fun _ => BatchRes.noData, finalCount := some 0 } }

/-- A record carrying the store-assigned surrogate key. -/
def recWithId : DbRecord :=
  [("id", some "7"), ("inference_provider", some "OpenRouter"),
   ("human_readable_name", some "Model A")]

/-- A Google record rejected by local validation (wrong identity field). -/
def gRecBad : DbRecord :=
  [("inference_provider", some "OpenRouter"), ("human_readable_name", some "Stray")]

/-! ## Claim theorems -/

/-- C1 counterexample: a google refresh session whose snapshot read fails
(`backupRaises = true`) still issues the scoped delete and an insert, and even
reports overall success — refuting the claim that a failed snapshot aborts the
session with no delete or insert call ever issued. -/
theorem C1_counterexample :
    gEnvC1.backupRaises = true ∧
    GoogleRefresh.main gEnvC1 =
      (true, [Op.selectScope, Op.deleteScope, Op.insertRows [gRec]]) ∧
    Op.deleteScope ∈ (GoogleRefresh.main gEnvC1).2 := by
  refine ⟨rfl, rfl, ?_⟩
  decide

/-- C1 amended: in the two openrouter scripts a failed snapshot read aborts the
session before any delete or insert, and the delete is issued only in sessions
whose snapshot succeeded; the google refresh instead proceeds to the delete in
every session that reaches it, regardless of the snapshot outcome. -/
theorem C1_amended :
    (∀ env : ORRefresh.Env, env.backupRaises = true →
      (ORRefresh.main env).ok = false ∧
      Op.deleteScope ∉ (ORRefresh.main env).trace ∧
      ∀ p, Op.insertRows p ∉ (ORRefresh.main env).trace) ∧
    (∀ env : ORRefresh.Env, Op.deleteScope ∈ (ORRefresh.main env).trace →
      env.backupRaises = false) ∧
    (∀ env : ProdDeploy.Env, env.backupRaises = true →
      (ProdDeploy.main env).ok = false ∧
      Op.deleteScope ∉ (ProdDeploy.main env).trace ∧
      ∀ p, Op.insertRows p ∉ (ProdDeploy.main env).trace) ∧
    (∀ env : ProdDeploy.Env, Op.deleteScope ∈ (ProdDeploy.main env).trace →
      env.backupRaises = false) ∧
    (∀ env : GoogleRefresh.Env, env.clientOk = true →
      env.pipelineData.isEmpty = false →
      Op.deleteScope ∈ (GoogleRefresh.main env).2) := by
  refine ⟨?_, or_main_delete_gate, ?_, prod_main_delete_gate,
    g_main_deletes_despite_backup_failure⟩
  · intro env h
    obtain ⟨h1, _, h3, h4⟩ := or_main_backup_fail env h
    exact ⟨h1, h3, h4⟩
  · intro env h
    obtain ⟨h1, _, h3, h4⟩ := prod_main_backup_fail env h
    exact ⟨h1, h3, h4⟩

/-- C1 witness: the amended theorem applied at concrete environments. -/
theorem C1_witness :
    (ORRefresh.main envC1w).ok = false ∧
    Op.deleteScope ∉ (ORRefresh.main envC1w).trace ∧
    (ProdDeploy.main envC1wProd).ok = false ∧
    Op.deleteScope ∈ (GoogleRefresh.main gEnvC1).2 :=
  ⟨(C1_amended.1 envC1w rfl).1, (C1_amended.1 envC1w rfl).2.1,
   (C1_amended.2.2.1 envC1wProd rfl).1,
   C1_amended.2.2.2.2 gEnvC1 rfl rfl⟩

/-- C2 counterexample: a twenty-record snapshot restored to a final scoped
count of 18 — exactly 90% of the original — is reported as a FAILED rollback
by the working-version refresh script, whose bar is 95%, refuting the claimed
90% acceptance for that script. -/
theorem C2_counterexample :
    (ORRefresh.restore_backup_data backup20 renvC2).1 = false ∧
    90 * backup20.length ≤ 100 * 18 := by
  constructor
  · have h1 : (ORRefresh.restore_backup_data backup20 renvC2).1 =
        decide ((18 : ℚ) ≥ (backup20.length : ℚ) * (95 / 100)) := rfl
    rw [h1]
    have h2 : ¬ ((18 : ℚ) ≥ (backup20.length : ℚ) * (95 / 100)) := by
      rw [show backup20.length = 20 from rfl]
      norm_num
    exact decide_eq_false h2
  · decide

/-- C2 amended: after a failed Insert or Verify stage, the rollback
coordinator is invoked exactly once (no automatic retry) and the session ends
unsuccessfully; rollback is reported successful iff the post-restore scoped
count query succeeds with a count of at least 95% of the snapshot size in the
working-version refresh script, respectively a positive count of at least 90%
in the production deployment script. -/
theorem C2_amended :
    (∀ (backup : List DbRecord) (env : RestoreEnv), backup ≠ [] →
      ((ORRefresh.restore_backup_data backup env).1 = true ↔
        ∃ n, env.finalCount = some n ∧ 95 * backup.length ≤ 100 * n)) ∧
    (∀ (backup : List DbRecord) (env : RestoreEnv), backup ≠ [] →
      ((ProdDeploy.restore_production_backup backup env).1 = true ↔
        ∃ n, env.finalCount = some n ∧ 0 < n ∧ 90 * backup.length ≤ 100 * n)) ∧
    (∀ (env : ORRefresh.Env) (b : Bool),
      (ORRefresh.main env).rollbackReported = some b →
      (ORRefresh.main env).ok = false ∧
      (ORRefresh.main env).restoreInvocations = 1 ∧
      b = (ORRefresh.restore_backup_data env.scopedRows env.restore).1) ∧
    (∀ (env : ProdDeploy.Env) (b : Bool),
      (ProdDeploy.main env).rollbackReported = some b →
      (ProdDeploy.main env).ok = false ∧
      (ProdDeploy.main env).restoreInvocations = 1 ∧
      b = (ProdDeploy.restore_production_backup env.prodRows env.restore).1) :=
  ⟨or_restore_verdict, prod_restore_verdict, or_main_rollback, prod_main_rollback⟩

/-- C2 witness: the amended theorem applied at concrete inputs. -/
theorem C2_witness :
    ((ORRefresh.restore_backup_data backup20 renvC2).1 = true ↔
      ∃ n, renvC2.finalCount = some n ∧ 95 * backup20.length ≤ 100 * n) ∧
    (ORRefresh.main envC2w).ok = false ∧
    (ORRefresh.main envC2w).restoreInvocations = 1 :=
  ⟨C2_amended.1 backup20 renvC2 (by decide),
   (C2_amended.2.2.1 envC2w true rfl).1,
   (C2_amended.2.2.1 envC2w true rfl).2.1⟩

/-- C3 counterexample: the google delete returns ok (with the remaining-count
query even reporting five residual scoped rows) whenever the delete call does
not raise — refuting the claim that ok requires a post-delete count of zero. -/
theorem C3_counterexample :
    GoogleRefresh.delete_existing_data false false 5 =
      (true, [Op.deleteScope, Op.countScope]) ∧ 5 ≠ 0 :=
  ⟨rfl, by decide⟩

/-- C3 amended: in the two openrouter scripts, the scoped delete returns ok
only when the pre-delete count is zero (nothing to delete, no delete issued)
or the post-delete count is exactly zero, and an API-level success leaving
residual rows is a failure; the google refresh delete instead returns ok
whenever the delete call does not raise, regardless of remaining rows. -/
theorem C3_amended :
    (∀ (ic : Option Nat) (dr : Bool) (rc : Option Nat),
      ORRefresh.delete_existing_openrouter_data ic dr rc = true →
      ic = some 0 ∨ rc = some 0) ∧
    (∀ n m : ℕ, ORRefresh.delete_existing_openrouter_data (some (n + 1)) false
      (some (m + 1)) = false) ∧
    (∀ (ic : Option Nat) (dr : Bool) (rc : Option Nat),
      ProdDeploy.delete_production_OpenRouter_data ic dr rc = true →
      ic = some 0 ∨ rc = some 0) ∧
    (∀ n m : ℕ, ProdDeploy.delete_production_OpenRouter_data (some (n + 1)) false
      (some (m + 1)) = false) ∧
    (∀ (hasData : Bool) (remaining : ℕ),
      (GoogleRefresh.delete_existing_data false hasData remaining).1 = true) :=
  ⟨or_delete_ok_characterization, or_delete_residual_rows,
   prod_delete_ok_characterization, prod_delete_residual_rows,
   g_delete_ok_whenever_no_raise⟩

/-- C3 witness: the amended theorem applied at concrete inputs. -/
theorem C3_witness :
    ((some 0 : Option ℕ) = some 0 ∨ (none : Option ℕ) = some 0) ∧
    ((some 0 : Option ℕ) = some 0 ∨ (some 0 : Option ℕ) = some 0) :=
  ⟨C3_amended.1 (some 0) false none rfl,
   C3_amended.2.2.1 (some 0) true (some 0) rfl⟩

/-- C4 counterexample: a google refresh where the bulk insert of two records
returns a single row: the session accepts the partial bulk result, issues no
per-record fallback insert, and reports success — refuting the claim that the
fallback runs whenever the bulk insert returns fewer rows than submitted. -/
theorem C4_counterexample :
    gEnvC4.bulkOutcome = some 1 ∧ gEnvC4.pipelineData.length = 2 ∧
    GoogleRefresh.main gEnvC4 =
      (true, [Op.selectScope, Op.deleteScope, Op.insertRows [gRec, gRec2]]) ∧
    Op.insertRows [gRec] ∉ (GoogleRefresh.main gEnvC4).2 ∧
    Op.insertRows [gRec2] ∉ (GoogleRefresh.main gEnvC4).2 := by
  refine ⟨rfl, rfl, rfl, ?_, ?_⟩ <;> decide

/-- C4 amended: in the two openrouter insert engines, the per-record fallback
runs exactly when the bulk call raises or returns a row count different from
the submitted count, and it inserts the records one at a time in original
order; the google engine falls back only when the bulk call raises or returns
no rows at all — a partial non-empty bulk result is accepted without
fallback. -/
theorem C4_amended :
    (∀ (models : List DbRecord) (env : InsEnv), models ≠ [] →
      (ORRefresh.insert_new_data models env).2 =
        if env.bulkOutcome = some models.length then [Op.insertRows models]
        else Op.insertRows models :: models.map (fun m => Op.insertRows [m])) ∧
    (∀ (models : List DbRecord) (env : InsEnv), models ≠ [] →
      (ProdDeploy.deploy_to_production models env).2 =
        if env.bulkOutcome = some models.length then [Op.insertRows models]
        else Op.insertRows models :: models.map (fun m => Op.insertRows [m])) ∧
    (∀ (data : List DbRecord) (f : Nat → CallRes) (n : ℕ),
      GoogleRefresh.insertPhase data (some (n + 1)) f = (n + 1, [Op.insertRows data])) :=
  ⟨or_insert_ops, prod_deploy_ops, g_insertPhase_partial⟩

/-- C4 witness: the amended theorem applied at concrete inputs. -/
theorem C4_witness :
    (ORRefresh.insert_new_data [sampleRec]
        { bulkOutcome := some 1, singleRes := fun _ => CallRes.ok }).2 =
      (if ({ bulkOutcome := some 1, singleRes := fun _ => CallRes.ok } : InsEnv).bulkOutcome
          = some [sampleRec].length
       then [Op.insertRows [sampleRec]]
       else Op.insertRows [sampleRec] :: [sampleRec].map (fun m => Op.insertRows [m])) :=
  C4_amended.1 [sampleRec] { bulkOutcome := some 1, singleRes := fun _ => CallRes.ok }
    (by decide)

/-- C5: no record passed to a store insert in the primary insert paths or the
rollback paths of the two openrouter scripts carries an auto-managed field;
the google primary path passes records through unchanged, so the invariant
holds there under the spec-modelled guarantee that the upstream CSV producer
emits records without those fields. -/
theorem C5_no_auto_field_leakage :
    (∀ (models : List DbRecord) (r : DbRecord),
      r ∈ ORRefresh.prepare_data_for_insert models → noAutoFields r = true) ∧
    (∀ (staging : List DbRecord) (r : DbRecord),
      r ∈ ProdDeploy.prepare_data_for_production staging → noAutoFields r = true) ∧
    (∀ (models : List DbRecord) (env : InsEnv) (payload : List DbRecord),
      Op.insertRows payload ∈
        (ORRefresh.insert_new_data (ORRefresh.prepare_data_for_insert models) env).2 →
      ∀ r ∈ payload, noAutoFields r = true) ∧
    (∀ (staging : List DbRecord) (env : InsEnv) (payload : List DbRecord),
      Op.insertRows payload ∈
        (ProdDeploy.deploy_to_production
          (ProdDeploy.prepare_data_for_production staging) env).2 →
      ∀ r ∈ payload, noAutoFields r = true) ∧
    (∀ (backup : List DbRecord) (env : RestoreEnv) (payload : List DbRecord),
      Op.insertRows payload ∈ (ORRefresh.restore_backup_data backup env).2 →
      ∀ r ∈ payload, noAutoFields r = true) ∧
    (∀ (backup : List DbRecord) (env : RestoreEnv) (payload : List DbRecord),
      Op.insertRows payload ∈ (ProdDeploy.restore_production_backup backup env).2 →
      ∀ r ∈ payload, noAutoFields r = true) ∧
    (∀ (data : List DbRecord) (bo : Option Nat) (f : Nat → CallRes)
      (payload : List DbRecord), upstreamCandidateOk data →
      Op.insertRows payload ∈ (GoogleRefresh.insertPhase data bo f).2 →
      ∀ r ∈ payload, noAutoFields r = true) := by
  refine ⟨or_prepare_noAuto, prod_prepare_noAuto, ?_, ?_,
    or_restore_payload_noAuto, prod_restore_payload_noAuto, ?_⟩
  · intro models env payload h r hr
    exact or_prepare_noAuto models r (or_insert_payload_subset _ env payload h r hr)
  · intro staging env payload h r hr
    exact prod_prepare_noAuto staging r (prod_deploy_payload_subset _ env payload h r hr)
  · intro data bo f payload hup h r hr
    rcases g_insertPhase_payload data bo f payload h with h1 | ⟨r2, hP, hr2⟩
    · subst h1
      exact hup r hr
    · subst hP
      have hrr : r = r2 := by simpa using hr
      rw [hrr]
      exact hup r2 hr2

/-- C5 witness: the theorem applied at concrete inputs, including a record
that arrives carrying the surrogate key. -/
theorem C5_witness :
    noAutoFields (blankToNull (cleanRecord recWithId)) = true ∧
    (∀ r ∈ [gRec], noAutoFields r = true) :=
  ⟨C5_no_auto_field_leakage.1 [recWithId] (blankToNull (cleanRecord recWithId))
      (by decide),
   C5_no_auto_field_leakage.2.2.2.2.2.2 [gRec] (some 1) (fun _ => CallRes.ok) [gRec]
      (by
        intro r hr
        rw [List.mem_singleton] at hr
        subst hr
        decide)
      (by decide)⟩

/-- C6: under the production profile, the verification of the deployment
script accepts a final count iff its absolute difference from the expected
count is within `max(1, floor(0.05 * expected))`; for expected 500 and actual
485 the tolerance is 25 and verification passes, and a failed count query is
never accepted. -/
theorem C6_verify_tolerance :
    (∀ e a : ℕ, (ProdDeploy.verify_production_deployment e (some a) = true ↔
      ((a : ℤ) - (e : ℤ)).natAbs ≤ max 1 (5 * e / 100))) ∧
    (∀ e : ℕ, ProdDeploy.verify_production_deployment e none = false) ∧
    ProdDeploy.verify_production_deployment 500 (some 485) = true ∧
    max 1 (5 * 500 / 100) = 25 := by
  refine ⟨prod_verify_tolerance, fun e => rfl, ?_, by decide⟩
  exact (prod_verify_tolerance 500 485).mpr (by decide)

/-- C7 counterexample: an openrouter refresh session whose delete call
succeeds but whose post-delete verification count query fails: the session
aborts without any insert and without invoking rollback, yet the store no
longer holds the original scoped row — refuting the claim that after a failed
delete stage the store still holds the original scoped rows. -/
theorem C7_counterexample :
    (ORRefresh.main envC7).ok = false ∧
    (ORRefresh.main envC7).restoreInvocations = 0 ∧
    (ORRefresh.main envC7).trace =
      [Op.countScope, Op.selectScope, Op.countScope, Op.deleteScope, Op.countScope] ∧
    (ORRefresh.main envC7).rowsAtAbort = some [] ∧
    envC7.scopedRows = [sampleRec] ∧
    (ORRefresh.main envC7).rowsAtAbort ≠ some envC7.scopedRows := by
  refine ⟨rfl, rfl, rfl, rfl, rfl, ?_⟩
  decide

/-- C7 amended: if the delete stage fails, both openrouter sessions abort
immediately with no rollback invocation and no insert call ever issued; the
store is guaranteed to still hold the original scoped rows only when the
failure happened at the pre-delete count or at the delete call itself —
after a successful delete whose verification count fails, the session still
aborts without restoration although the scope is already empty. -/
theorem C7_amended :
    (∀ env : ORRefresh.Env,
      (ORRefresh.runDelete env.scopedRows env.precountFails env.deleteRaises
        env.postcountFails).1 = false →
      (ORRefresh.main env).ok = false ∧
      (ORRefresh.main env).restoreInvocations = 0 ∧
      (ORRefresh.main env).rollbackReported = none ∧
      (∀ p, Op.insertRows p ∉ (ORRefresh.main env).trace)) ∧
    (∀ env : ProdDeploy.Env,
      (ProdDeploy.runDelete env.prodRows env.precountFails env.deleteRaises
        env.postcountFails).1 = false →
      (ProdDeploy.main env).ok = false ∧
      (ProdDeploy.main env).restoreInvocations = 0 ∧
      (ProdDeploy.main env).rollbackReported = none ∧
      (∀ p, Op.insertRows p ∉ (ProdDeploy.main env).trace)) ∧
    (∀ (rows : List DbRecord) (p d q : Bool), p = true ∨ d = true →
      (ORRefresh.runDelete rows p d q).2.1 = rows) ∧
    (∀ (rows : List DbRecord) (p d q : Bool), p = true ∨ d = true →
      (ProdDeploy.runDelete rows p d q).2.1 = rows) := by
  refine ⟨?_, ?_, or_runDelete_preserves, prod_runDelete_preserves⟩
  · intro env h
    obtain ⟨h1, h2, h3, h4, _⟩ := or_main_delete_fail env h
    exact ⟨h1, h2, h3, h4⟩
  · intro env h
    obtain ⟨h1, h2, h3, h4, _⟩ := prod_main_delete_fail env h
    exact ⟨h1, h2, h3, h4⟩

/-- C7 witness: the amended theorem applied at a session failing the
pre-delete count. -/
theorem C7_witness :
    (ORRefresh.main envC7w).ok = false ∧
    (ORRefresh.main envC7w).restoreInvocations = 0 ∧
    (ORRefresh.runDelete [sampleRec] true false false).2.1 = [sampleRec] :=
  ⟨(C7_amended.1 envC7w rfl).1, (C7_amended.1 envC7w rfl).2.1,
   C7_amended.2.2.1 [sampleRec] true false false (Or.inl rfl)⟩

/-- C8: in the google individual-insert fallback, a record failing local
validation is counted as failed with no network insert call and the loop
continues with the remaining records unchanged; every network insert call the
loop issues carries a single record of the input that passed validation. -/
theorem C8_validation_skips_network :
    (∀ (f : Nat → CallRes) (i : ℕ) (r : DbRecord) (rs : List DbRecord),
      GoogleRefresh.validate_data_record r = false →
      GoogleRefresh.insert_data_individual f i (r :: rs) =
        ((GoogleRefresh.insert_data_individual f (i + 1) rs).1,
         (GoogleRefresh.insert_data_individual f (i + 1) rs).2.1 + 1,
         (GoogleRefresh.insert_data_individual f (i + 1) rs).2.2)) ∧
    (∀ (f : Nat → CallRes) (i : ℕ) (data payload : List DbRecord),
      Op.insertRows payload ∈ (GoogleRefresh.insert_data_individual f i data).2.2 →
      ∃ r, payload = [r] ∧ r ∈ data ∧ GoogleRefresh.validate_data_record r = true) :=
  ⟨g_indiv_skip, fun f i data payload h => g_indiv_payload f i data payload h⟩

/-- C8 witness: the theorem applied at a record with the wrong identity
field, followed by a valid record. -/
theorem C8_witness :
    GoogleRefresh.insert_data_individual (fun _ => CallRes.ok) 0 (gRecBad :: [gRec]) =
      ((GoogleRefresh.insert_data_individual (fun _ => CallRes.ok) 1 [gRec]).1,
       (GoogleRefresh.insert_data_individual (fun _ => CallRes.ok) 1 [gRec]).2.1 + 1,
       (GoogleRefresh.insert_data_individual (fun _ => CallRes.ok) 1 [gRec]).2.2) :=
  C8_validation_skips_network.1 (fun _ => CallRes.ok) 0 gRecBad [gRec] (by decide)

/-- C9: calling either restore routine with an empty snapshot returns success
immediately and issues no store operation at all, so the store is untouched. -/
theorem C9_empty_snapshot_rollback :
    ∀ envA envB : RestoreEnv,
      ORRefresh.restore_backup_data [] envA = (true, []) ∧
      ProdDeploy.restore_production_backup [] envB = (true, []) :=
  fun envA envB => ⟨or_restore_empty envA, prod_restore_empty envB⟩

/-- C10: both insert engines return success on an empty record list before
issuing any store call, and the success-rate expression maps an empty list to
rate 0 while dividing only by the (positive) length of a non-empty list. -/
theorem C10_no_division_by_zero :
    (∀ env : InsEnv, ORRefresh.insert_new_data [] env = (true, [])) ∧
    (∀ env : InsEnv, ProdDeploy.deploy_to_production [] env = (true, [])) ∧
    (∀ s : ℕ, success_rate s [] = 0) ∧
    (∀ (s : ℕ) (models : List DbRecord), models ≠ [] →
      success_rate s models = (s : ℚ) / (models.length : ℚ) ∧
      0 < models.length) := by
  refine ⟨or_insert_empty, prod_deploy_empty, fun s => rfl, ?_⟩
  intro s models h
  have hne : models.isEmpty = false := by
    cases models with
    | nil => exact absurd rfl h
    | cons a l => rfl
  constructor
  · unfold success_rate
    rw [hne]
    simp
  · cases models with
    | nil => exact absurd rfl h
    | cons a l => simp

/-- C10 witness: the theorem applied at a one-record list. -/
theorem C10_witness :
    success_rate 1 [sampleRec] = (1 : ℚ) / (([sampleRec].length : ℕ) : ℚ) ∧
    0 < [sampleRec].length :=
  C10_no_division_by_zero.2.2.2 1 [sampleRec] (by decide)
